import Mathlib

/-!
Verification development for `src/bundle.py` of the `firefox-session-ui-gtk4`
repository: a Windows packaging script for a GTK4 application.

The Python functions are shallowly embedded as pure Lean functions.  Values
decoded from JSON documents (`json.loads`) are modelled by the inductive type
`Json`; Python exceptions are modelled by the `PyError` type and fallible code
returns `Except PyError _`.  External effects (spawned subprocesses, HTTP
requests, archive extraction, filesystem writes) are modelled by explicit
event traces and an explicit filesystem map, so that ordering and frame
properties of the script can be stated and proved.
-/

namespace BundleSpec

/-- A decoded JSON value, as produced by Python's `json.loads`.  Numbers are
modelled as integers (no claim depends on floating point). -/
inductive Json where
  | null
  | bool (b : Bool)
  | num (n : Int)
  | str (s : String)
  | arr (xs : List Json)
  | obj (fields : List (String × Json))

/-- Python exceptions that the modelled fragments of `bundle.py` can raise. -/
inductive PyError where
  | keyError (key : String)
  | typeError (msg : String)
  | valueError (msg : String)
  | assertionError
  | calledProcessError
deriving DecidableEq, Repr

/-- Lookup in a Python dict represented as an association list (first match
wins; `dict` keys are unique in practice). -/
def jlookup : List (String × Json) → String → Option Json
  | [], _ => none
  | (k', v) :: rest, k => if k' = k then some v else jlookup rest k

/-- Python subscript access `value[key]` with a string key: succeeds only on a
dict that has the key; a dict without the key raises `KeyError`; any non-dict
value raises `TypeError` (not subscriptable / wrong index type). -/
def dictGet (j : Json) (k : String) : Except PyError Json :=
  match j with
  | .obj fields =>
    match jlookup fields k with
    | some v => .ok v
    | none => .error (.keyError k)
  | _ => .error (.typeError "value is not subscriptable with a string key")

/-- Python `value is None` for a decoded JSON value. -/
def jsonIsNull : Json → Bool
  | .null => true
  | _ => false

/-- Python `isinstance(value, str)`, returning the string when it is one. -/
def jsonAsStr : Json → Option String
  | .str s => some s
  | _ => none

/-- Python truthiness (`bool(value)`) of a decoded JSON value. -/
def jsonTruthy : Json → Bool
  | .null => false
  | .bool b => b
  | .num n => n != 0
  | .str s => s != ""
  | .arr xs => !xs.isEmpty
  | .obj fields => !fields.isEmpty

/-- The metadata record produced by `get_cargo_metadata` (the `CargoMetadata`
dataclass of `bundle.py`, lines 73-76). -/
structure CargoMetadata where
  target_directory : String
  package_name : String
deriving DecidableEq, Repr

/-- The pure core of `get_cargo_metadata` (`bundle.py` lines 89-114): given the
decoded JSON document printed by `cargo metadata`, validate it and extract the
target directory and the single package name.  Each subscript access
`metadata[...]` is modelled by `dictGet` (so an absent key raises `KeyError`);
the explicit `raise ValueError(...)` statements are modelled by
`PyError.valueError` with the exact message strings of the source. -/
def get_cargo_metadata (metadata : Json) : Except PyError CargoMetadata :=
  match dictGet metadata "target_directory" with
  | .error e => .error e
  | .ok td =>
    if jsonIsNull td then
      .error (.valueError "The returned json object didn\x27t define a \"target_directory\" property")
    else
      match jsonAsStr td with
      | none => .error (.valueError "target_directory is not a string")
      | some target_dir =>
        match dictGet metadata "packages" with
        | .error e => .error e
        | .ok pk =>
          if jsonTruthy pk = false then
            .error (.valueError "The returned json object didn\x27t define a \"packages\" property")
          else
            match pk with
            | .arr [p] =>
              match dictGet p "name" with
              | .error e => .error e
              | .ok nm =>
                if jsonIsNull nm then
                  .error (.valueError "The package didn\x27t define a \"name\" property")
                else
                  match jsonAsStr nm with
                  | none => .error (.valueError "name is not a string")
                  | some package_name =>
                    .ok { target_directory := target_dir, package_name := package_name }
            | .arr _ => .error (.valueError "packages is not a list of length 1")
            | _ => .error (.valueError "packages is not a list")

/-! String and path helpers.  `bundle.py` manipulates `pathlib.Path` values;
paths are modelled as strings with `/` separators.  `Path.joinpath` drops
single-dot segments; `Path.resolve` additionally eliminates `..` segments
lexically (symlink resolution and drive handling are not modelled; no claim
depends on them).  The splitting functions are written by structural recursion
on the character list so that concrete instances reduce inside the kernel. -/

/-- Split a character list at every `/`. -/
def splitSlashChars : List Char → List (List Char)
  | [] => [[]]
  | c :: cs =>
    let rest := splitSlashChars cs
    if c = '/' then [] :: rest
    else (c :: rest.headI) :: rest.tail

/-- Split a path string into its `/`-separated segments. -/
def pathSegs (p : String) : List String :=
  (splitSlashChars p.data).map (fun cs => String.mk cs)

/-- Python `Path(a).joinpath(b)`: concatenation with a separator, with
single-dot segments dropped (as `pathlib` does on construction). -/
def pjoin (a b : String) : String :=
  String.intercalate "/" ((pathSegs (a ++ "/" ++ b)).filter (fun s => s ≠ "."))

/-- Python `Path(p).resolve()`: lexical normalization removing `.` segments
and folding `..` segments into their parent. -/
def resolvePath (p : String) : String :=
  String.intercalate "/"
    ((pathSegs p).foldl
      (fun acc s =>
        if s = "." then acc
        else if s = ".." then acc.dropLast
        else acc ++ [s])
      [])

/-- Does `needle` occur as a contiguous run at the front of `hay`? -/
def startsWithList : List Char → List Char → Bool
  | _, [] => true
  | [], _ :: _ => false
  | c :: cs, n :: ns => c == n && startsWithList cs ns

/-- Does `needle` occur as a contiguous run anywhere in `hay`? -/
def hasSubList (needle : List Char) : List Char → Bool
  | [] => needle.isEmpty
  | c :: cs => startsWithList (c :: cs) needle || hasSubList needle cs

/-- Python `needle in hay` on strings (substring test). -/
def strContains (hay needle : String) : Bool :=
  hasSubList needle.data hay.data

/-! Environment model.  `os.environ` and the copied environment dict passed to
the build subprocess are association lists from variable names to values. -/

/-- An environment dict (`os.environ` or a copy of it). -/
abbrev Env := List (String × String)

/-- Lookup of an environment variable. -/
def envLookup : Env → String → Option String
  | [], _ => none
  | (k', v) :: rest, k => if k' = k then some v else envLookup rest k

/-- Python `env[k]`: the value when present, `KeyError` otherwise. -/
def envGet (e : Env) (k : String) : Except PyError String :=
  match envLookup e k with
  | some v => .ok v
  | none => .error (.keyError k)

/-- Python `env[k] = v` on a dict: replace the value in place when the key is
present, append a new entry otherwise. -/
def envSet : Env → String → String → Env
  | [], k, v => [(k, v)]
  | (k', v') :: rest, k, v =>
    if k' = k then (k, v) :: rest else (k', v') :: envSet rest k v

/-- Environment preparation of `build_rust_binary` (`bundle.py` lines 30-34):
copy the parent environment (the copy is the value passed in), then

* `my_env["PKG_CONFIG_PATH"] = str(gtk_bin_dir.joinpath("../lib/pkgconfig").resolve())`
* `my_env["PATH"] = my_env["PATH"] + ";" + str(gtk_bin_dir.resolve())`
* `my_env["LIB"] = my_env["LIB"] + ";" + str(gtk_bin_dir.joinpath("../lib").resolve())`

The reads `my_env["PATH"]` and `my_env["LIB"]` raise `KeyError` when absent. -/
def build_env (gtk_bin_dir : String) (parent : Env) : Except PyError Env :=
  let my_env := envSet parent "PKG_CONFIG_PATH"
    (resolvePath (pjoin gtk_bin_dir "../lib/pkgconfig"))
  match envGet my_env "PATH" with
  | .error e => .error e
  | .ok path =>
    let my_env2 := envSet my_env "PATH" (path ++ ";" ++ resolvePath gtk_bin_dir)
    match envGet my_env2 "LIB" with
    | .error e => .error e
    | .ok lib =>
      .ok (envSet my_env2 "LIB" (lib ++ ";" ++ resolvePath (pjoin gtk_bin_dir "../lib")))

/-- Lookup of a variable in the child environment that `build_rust_binary`
passes to the build subprocess (`none` when environment preparation fails). -/
def childEnvLookup (gtk_bin_dir : String) (parent : Env) (k : String) : Option String :=
  match build_env gtk_bin_dir parent with
  | .ok e => envLookup e k
  | .error _ => none

/-! Build invocation and message parsing (`bundle.py` lines 36-70). -/

/-- Python `msg["reason"] != "compiler-artifact"`, negated: the reason value
compares equal to the string `"compiler-artifact"`. -/
def reasonIsCompilerArtifact : Json → Bool
  | .str s => s == "compiler-artifact"
  | _ => false

/-- The message-filtering loop of `build_rust_binary` (`bundle.py` lines
59-66), over the decoded JSON-lines messages of the build tool's stdout:

* a message whose `"reason"` is not the string `"compiler-artifact"` is skipped;
* otherwise a message whose `"executable"` is falsy or not a string is skipped;
* otherwise the executable string is appended to the result.

Subscript access on a message without the key raises `KeyError`. -/
def collect_binaries : List Json → Except PyError (List String)
  | [] => .ok []
  | m :: rest =>
    match dictGet m "reason" with
    | .error e => .error e
    | .ok reason =>
      if reasonIsCompilerArtifact reason = false then collect_binaries rest
      else
        match dictGet m "executable" with
        | .error e => .error e
        | .ok ex =>
          if jsonTruthy ex = false then collect_binaries rest
          else
            match ex with
            | .str s =>
              (match collect_binaries rest with
               | .error e => .error e
               | .ok bs => .ok (s :: bs))
            | _ => collect_binaries rest

/-- The tail of `build_rust_binary` (`bundle.py` lines 59-70): collect the
retained executables, `assert len(binaries) == 1`, and return `binaries[0]`.
A failed assertion is `AssertionError`. -/
def find_built_binary (msgs : List Json) : Except PyError String :=
  match collect_binaries msgs with
  | .error e => .error e
  | .ok binaries =>
    match binaries with
    | [b] => .ok b
    | _ => .error .assertionError

/-- The build tool's documented message schema (each JSON-lines message is an
object carrying a `"reason"` tag, and a message tagged `"compiler-artifact"`
also carries an `"executable"` field, possibly null).  `bundle.py` parses its
collaborator's output assuming this shape. -/
def buildMsgSchema : Json → Bool
  | .obj fields =>
    match jlookup fields "reason" with
    | none => false
    | some (.str r) =>
      if r = "compiler-artifact" then (jlookup fields "executable").isSome else true
    | some _ => true
  | _ => false

/-- Specification-side description of the retained messages, following the
claim's words (for comparison with the source-side `collect_binaries`): a
message is retained exactly when its `"reason"` field equals
`"compiler-artifact"` and its `"executable"` field is a non-empty string, and
the retained value is that string. -/
def specRetainedExecutable (m : Json) : Option String :=
  match m with
  | .obj fields =>
    match jlookup fields "reason", jlookup fields "executable" with
    | some (.str r), some (.str s) =>
      if r = "compiler-artifact" ∧ s ≠ "" then some s else none
    | _, _ => none
  | _ => none

/-- One spawned subprocess: its argument list, whether stdout was captured,
and the environment dict it was given. -/
structure SpawnCall where
  args : List String
  captureStdout : Bool
  env : Env
deriving DecidableEq, Repr

/-- The process-wide state touched by `build_rust_binary`: the parent
process's environment (`os.environ`) and the trace of spawned subprocesses. -/
structure World where
  environ : Env
  spawns : List SpawnCall
deriving DecidableEq, Repr

/-- Argument list of the captured build run (`bundle.py` line 39). -/
def cargoBuildJsonArgs : List String :=
  ["cargo", "build", "--release", "--message-format", "json"]

/-- Argument list of the uncaptured retry run (`bundle.py` line 49). -/
def cargoBuildRetryArgs : List String :=
  ["cargo", "build", "--release"]

/-- The whole of `build_rust_binary` (`bundle.py` lines 22-70) as a state
transformer on `World`.  The behaviour of the external build tool is an
oracle: `buildSucceeds` tells whether the captured `cargo build` run exits
successfully, and `stdoutMsgs` is its decoded JSON-lines stdout.  On a failed
captured run the script spawns the uncaptured retry run with the same
environment and re-raises (`CalledProcessError`).  `os.environ` is only ever
read (copied); the mutated dict `my_env` exists only in the spawn records. -/
def build_rust_binary (gtk_bin_dir : String) (buildSucceeds : Bool)
    (stdoutMsgs : List Json) (w : World) : World × Except PyError String :=
  match build_env gtk_bin_dir w.environ with
  | .error e => (w, .error e)
  | .ok my_env =>
    let w1 : World :=
      { w with spawns := w.spawns ++ [⟨cargoBuildJsonArgs, true, my_env⟩] }
    if buildSucceeds then
      (w1, find_built_binary stdoutMsgs)
    else
      let w2 : World :=
        { w1 with spawns := w1.spawns ++ [⟨cargoBuildRetryArgs, false, my_env⟩] }
      (w2, .error .calledProcessError)

/-! The `--download-gtk` branch of `bundle` (`bundle.py` lines 156-228). -/

/-- A GitHub release asset descriptor, at the schema the script relies on
(fields `name`, `browser_download_url`, `content_type`; a JSON-null download
URL is `none`). -/
structure Asset where
  name : String
  browser_download_url : Option String
  content_type : String
deriving DecidableEq, Repr

/-- External effects of the `--download-gtk` branch. -/
inductive Event where
  | httpGet (url : String)
  | download (url : String)
  | extract (dir : String)
deriving DecidableEq, Repr

/-- How the `--download-gtk` branch ends: either control continues with the
GTK `bin` directory, or the script exits with the given code. -/
inductive BranchOutcome where
  | proceed (gtk_bin_dir : String)
  | exitCode (n : Nat)
deriving DecidableEq, Repr

/-- A run of the `--download-gtk` branch: the network/extraction events it
performed, the lines it printed, and how it ended. -/
structure BranchRun where
  events : List Event
  prints : List String
  outcome : BranchOutcome
deriving DecidableEq, Repr

/-- The release-listing endpoint queried at `bundle.py` line 168. -/
def releasesUrl : String :=
  "https://api.github.com/repos/wingtk/gvsbuild/releases/latest"

/-- The asset filter of `bundle.py` lines 184-189: keep the assets whose name
contains `"GTK4"`. -/
def gtk_asset_filter (assets : List Asset) : List Asset :=
  assets.filter (fun a => strContains a.name "GTK4")

/-- The assets of the decoded release document that match the GTK4 name
filter (`none` models a JSON-null `assets` field, which matches nothing). -/
def matchedAssets : Option (List Asset) → List Asset
  | none => []
  | some assetList => gtk_asset_filter assetList

/-- The `--download-gtk` branch of `bundle` (`bundle.py` lines 156-228).
Inputs are the build-tool output directory, whether the cache directory
already exists on disk, and the release-listing response (HTTP status and
decoded `assets` field).  When the cache directory exists nothing is fetched;
otherwise the listing is fetched, validated step by step exactly as in the
source (each failed check prints a diagnostic and exits with code 1), and on
success the archive is downloaded and extracted into the cache directory. -/
def download_gtk_branch (targetDir : String) (cacheExists : Bool)
    (statusCode : Nat) (assets : Option (List Asset)) : BranchRun :=
  let gtkFromGithub := pjoin targetDir "./gtk-from-github"
  let header :=
    ["Downloading latest GTK release by gvsbuild from https://github.com/wingtk/gvsbuild/releases"]
  if cacheExists then
    { events := []
      prints := header ++ ["GTK release already downloaded at: " ++ gtkFromGithub]
      outcome := .proceed (pjoin gtkFromGithub "bin") }
  else if statusCode ≠ 200 then
    { events := [.httpGet releasesUrl]
      prints := header ++
        ["Could not download GTK release, HTTP status code: " ++ toString statusCode]
      outcome := .exitCode 1 }
  else
    match assets with
    | none =>
      { events := [.httpGet releasesUrl]
        prints := header ++ ["Could not download GTK release, no assets found"]
        outcome := .exitCode 1 }
    | some assetList =>
      if assetList.length = 0 then
        { events := [.httpGet releasesUrl]
          prints := header ++ ["Could not download GTK release, no assets found"]
          outcome := .exitCode 1 }
      else
        match gtk_asset_filter assetList with
        | [gtkAsset] =>
          (match gtkAsset.browser_download_url with
           | none =>
             { events := [.httpGet releasesUrl]
               prints := header ++
                 ["Downloading amd unzipping GitHub release asset: " ++ gtkAsset.name,
                  "Could not download GTK release, no browser_download_url found"]
               outcome := .exitCode 1 }
           | some url =>
             if gtkAsset.content_type ≠ "application/zip" then
               { events := [.httpGet releasesUrl]
                 prints := header ++
                   ["Downloading amd unzipping GitHub release asset: " ++ gtkAsset.name,
                    "Could not download GTK release, content_type is not application/zip, instead it was: "
                      ++ gtkAsset.content_type]
                 outcome := .exitCode 1 }
             else
               { events := [.httpGet releasesUrl, .download url, .extract gtkFromGithub]
                 prints := header ++
                   ["Downloading amd unzipping GitHub release asset: " ++ gtkAsset.name,
                    "\tFrom URL: " ++ url,
                    "\tTo folder at: " ++ gtkFromGithub]
                 outcome := .proceed (pjoin gtkFromGithub "bin") })
        | _ =>
          { events := [.httpGet releasesUrl]
            prints := header ++
              ["Could not download GTK release, no assets with the name GTK4 was found"]
            outcome := .exitCode 1 }

/-! Bundle assembly (`bundle.py` lines 252-292).  The filesystem is modelled
as a map from (normalized) path strings to file contents; directories are
implicit (`mkdir` with `exist_ok=True` never fails and creates no files). -/

/-- A filesystem: file path to file content. -/
abbrev FileSys := String → Option String

/-- Write (create or overwrite) one file, as `shutil.copy2` to an existing
destination or `open(path, "w")` both do. -/
def setFile (fs : FileSys) (k v : String) : FileSys :=
  fun q => if q = k then some v else fs q

/-- Apply a sequence of file writes in order. -/
def applyWrites (ws : List (String × String)) (fs : FileSys) : FileSys :=
  ws.foldl (fun acc kv => setFile acc kv.1 kv.2) fs

/-- The value of the last write to key `k` in a write sequence, if any. -/
def lastWrite : List (String × String) → String → Option String
  | [], _ => none
  | kv :: ws, k =>
    match lastWrite ws k with
    | some v => some v
    | none => if kv.1 = k then some kv.2 else none

/-- The relevant contents of the GTK toolkit directory tree: the `*.dll`
files of the `bin` directory (name and content, as enumerated by the glob),
the content of `bin/gdbus.exe`, and the content of
`../share/glib-2.0/schemas/gschemas.compiled`. -/
structure ToolkitDir where
  dlls : List (String × String)
  gdbus : String
  gschemas : String

/-- The two-line content written to `share/gtk-4.0/settings.ini`
(`bundle.py` lines 290-291: two `f.write` calls on a file opened with
mode `"w"`). -/
def settings_ini_content : String :=
  "[Settings]\n" ++ "gtk-font-name=Segoe UI 10\n"

/-- The file writes of bundle assembly (`bundle.py` lines 259-292), in source
order: every DLL of the toolkit `bin` directory copied into the bundle root,
then `gdbus.exe`, then `gschemas.compiled` into
`share/glib-2.0/schemas`, then the generated `share/gtk-4.0/settings.ini`. -/
def bundleWrites (t : ToolkitDir) (bundleDir : String) : List (String × String) :=
  (t.dlls.map (fun nc => (pjoin bundleDir nc.1, nc.2))) ++
    [(pjoin bundleDir "gdbus.exe", t.gdbus),
     (pjoin (pjoin bundleDir "./share/glib-2.0/schemas") "gschemas.compiled", t.gschemas),
     (pjoin bundleDir "./share/gtk-4.0/settings.ini", settings_ini_content)]

/-- Bundle assembly (`bundle.py` lines 252-292) as a filesystem transformer:
apply the bundle writes to the current filesystem.  (`mkdir(parents=True,
exist_ok=True)` calls create no files and are omitted; the binary copy at
lines 307-312 happens later, after the build.) -/
def bundle_assembly (t : ToolkitDir) (bundleDir : String) (fs : FileSys) : FileSys :=
  applyWrites (bundleWrites t bundleDir) fs

/-! The final steps of `bundle` (`bundle.py` lines 315-332). -/

/-- The observable actions of the final part of `bundle`: revealing the
binary in the file manager, creating the zip archive, revealing the zip. -/
inductive FinalStep where
  | revealBinary
  | makeZip
  | revealZip
deriving DecidableEq, Repr

/-- Is a final step the archiving step? -/
def isZipStep : FinalStep → Bool
  | .makeZip => true
  | _ => false

/-- Is a final step a file-manager reveal? -/
def isRevealStep : FinalStep → Bool
  | .revealBinary => true
  | .revealZip => true
  | .makeZip => false

/-- The ordered action list of `bundle.py` lines 315-332: if `--show-binary`
was given, reveal the binary (line 320); zip the bundle directory (line 325);
if `--show-zip` was given, reveal the zip file (line 331). -/
def final_steps (showBinary showZip : Bool) : List FinalStep :=
  (if showBinary then [FinalStep.revealBinary] else []) ++
    [FinalStep.makeZip] ++
    (if showZip then [FinalStep.revealZip] else [])

/-- Does no reveal step occur before the first archiving step?  This is the
ordering property "archiving always precedes any reveal". -/
def noRevealBeforeZip : List FinalStep → Bool
  | [] => true
  | s :: rest =>
    if isRevealStep s then false
    else if isZipStep s then true
    else noRevealBeforeZip rest

/-! Concrete inputs used by witnesses and counterexamples. -/

/-- A parent environment defining all three variables touched by
`build_rust_binary`. -/
def demoParentEnv : Env :=
  [("PKG_CONFIG_PATH", "OLD"), ("PATH", "P"), ("LIB", "L")]

/-- A parent environment without `LIB`. -/
def demoEnvNoLib : Env := [("PATH", "P")]

/-- A well-formed `cargo metadata` document with one package. -/
def demoMetadata : Json :=
  .obj [("target_directory", .str "/proj/target"),
        ("packages", .arr [.obj [("name", .str "firefox-session-ui-gtk4")]])]

/-- Build-tool output with exactly one retained compiler artifact. -/
def demoMsgs : List Json :=
  [.obj [("reason", .str "compiler-script-run")],
   .obj [("reason", .str "compiler-artifact"), ("executable", .null)],
   .obj [("reason", .str "compiler-artifact"), ("executable", .str "/proj/target/release/app.exe")],
   .obj [("reason", .str "build-finished"), ("success", .bool true)]]

/-- A release asset matching the GTK4 filter with an archive content type. -/
def demoAsset : Asset :=
  { name := "GTK4_Gvsbuild_2024.7.0_x64.zip"
    browser_download_url := some "https://example.invalid/gtk4.zip"
    content_type := "application/zip" }

/-! Helper lemmas about the environment model. -/

theorem envLookup_envSet_self (e : Env) (k v : String) :
    envLookup (envSet e k v) k = some v := by
  induction e with
  | nil => simp [envSet, envLookup]
  | cons hd tl ih =>
    obtain ⟨k', v'⟩ := hd
    by_cases h : k' = k
    · simp [envSet, envLookup, h]
    · simp [envSet, envLookup, h, ih]

theorem envLookup_envSet_ne (e : Env) (k k' v : String) (h : k ≠ k') :
    envLookup (envSet e k' v) k = envLookup e k := by
  induction e with
  | nil => simp [envSet, envLookup, Ne.symm h]
  | cons hd tl ih =>
    obtain ⟨a, b⟩ := hd
    by_cases ha : a = k'
    · subst ha
      simp [envSet, envLookup, Ne.symm h]
    · by_cases hak : a = k
      · simp [envSet, envLookup, ha, hak, h]
      · simp [envSet, envLookup, ha, hak, h, ih]

/-- When the parent environment lacks `LIB` or `PATH`, environment
preparation fails with the corresponding `KeyError`. -/
theorem build_env_of_missing (gtk_bin_dir : String) (parent : Env)
    (h : envLookup parent "LIB" = none ∨ envLookup parent "PATH" = none) :
    build_env gtk_bin_dir parent = .error (.keyError "PATH") ∨
    build_env gtk_bin_dir parent = .error (.keyError "LIB") := by
  by_cases hp : envLookup parent "PATH" = none
  · left
    have h1 : envLookup
        (envSet parent "PKG_CONFIG_PATH" (resolvePath (pjoin gtk_bin_dir "../lib/pkgconfig")))
        "PATH" = none := by
      rw [envLookup_envSet_ne _ _ _ _ (by decide)]; exact hp
    simp [build_env, envGet, h1]
  · right
    obtain ⟨p, hp'⟩ : ∃ p, envLookup parent "PATH" = some p := by
      cases hq : envLookup parent "PATH" with
      | none => exact absurd hq hp
      | some p => exact ⟨p, rfl⟩
    have hl : envLookup parent "LIB" = none := by
      rcases h with h | h
      · exact h
      · exact absurd h hp
    have h1 : envLookup
        (envSet parent "PKG_CONFIG_PATH" (resolvePath (pjoin gtk_bin_dir "../lib/pkgconfig")))
        "PATH" = some p := by
      rw [envLookup_envSet_ne _ _ _ _ (by decide)]; exact hp'
    have h2 : envLookup
        (envSet
          (envSet parent "PKG_CONFIG_PATH" (resolvePath (pjoin gtk_bin_dir "../lib/pkgconfig")))
          "PATH" (p ++ ";" ++ resolvePath gtk_bin_dir))
        "LIB" = none := by
      rw [envLookup_envSet_ne _ _ _ _ (by decide),
        envLookup_envSet_ne _ _ _ _ (by decide)]
      exact hl
    simp [build_env, envGet, h1, h2]

/-- C9: `build_rust_binary` never mutates the parent process's environment:
all changes are made on a copy passed only to the spawned build subprocess,
so `os.environ` is identical before and after the call, on every input and
whether or not the captured build run succeeds. -/
theorem C9_environ_preserved (gtk_bin_dir : String) (buildSucceeds : Bool)
    (stdoutMsgs : List Json) (w : World) :
    (build_rust_binary gtk_bin_dir buildSucceeds stdoutMsgs w).1.environ = w.environ := by
  unfold build_rust_binary
  cases build_env gtk_bin_dir w.environ <;> cases buildSucceeds <;> simp

/-- C10: when the parent environment does not define `LIB` (or `PATH`),
`build_rust_binary` fails with a `KeyError` during environment preparation
and the world is unchanged — in particular no build subprocess was ever
spawned. -/
theorem C10_missing_env_keyerror (gtk_bin_dir : String) (buildSucceeds : Bool)
    (stdoutMsgs : List Json) (w : World)
    (h : envLookup w.environ "LIB" = none ∨ envLookup w.environ "PATH" = none) :
    (build_rust_binary gtk_bin_dir buildSucceeds stdoutMsgs w).1 = w ∧
    ((build_rust_binary gtk_bin_dir buildSucceeds stdoutMsgs w).2 = .error (.keyError "PATH") ∨
     (build_rust_binary gtk_bin_dir buildSucceeds stdoutMsgs w).2 = .error (.keyError "LIB")) := by
  rcases build_env_of_missing gtk_bin_dir w.environ h with he | he
  · refine ⟨?_, Or.inl ?_⟩ <;> simp [build_rust_binary, he]
  · refine ⟨?_, Or.inr ?_⟩ <;> simp [build_rust_binary, he]

/-- C10 witness: a concrete parent environment without `LIB` makes
`build_rust_binary` fail with a `KeyError` and leaves the world unchanged. -/
theorem C10_witness :
    envLookup (World.mk demoEnvNoLib []).environ "LIB" = none ∧
    (build_rust_binary "C:/gtk/bin" true [] ⟨demoEnvNoLib, []⟩).1 = ⟨demoEnvNoLib, []⟩ ∧
    ((build_rust_binary "C:/gtk/bin" true [] ⟨demoEnvNoLib, []⟩).2 = .error (.keyError "PATH") ∨
     (build_rust_binary "C:/gtk/bin" true [] ⟨demoEnvNoLib, []⟩).2 = .error (.keyError "LIB")) :=
  ⟨rfl, C10_missing_env_keyerror "C:/gtk/bin" true [] ⟨demoEnvNoLib, []⟩ (Or.inl rfl)⟩

/-- C1 counterexample: with a parent environment where `PKG_CONFIG_PATH` is
`"OLD"`, the child environment's `PKG_CONFIG_PATH` is the toolkit pkgconfig
directory alone — the parent value does not even occur in it, so
`PKG_CONFIG_PATH` is wholly replaced, not extended, refuting the claim that
none of the three variables is wholly replaced. -/
theorem C1_counterexample :
    childEnvLookup "C:/gtk/bin" demoParentEnv "PKG_CONFIG_PATH" = some "C:/gtk/lib/pkgconfig" ∧
    envLookup demoParentEnv "PKG_CONFIG_PATH" = some "OLD" ∧
    strContains "C:/gtk/lib/pkgconfig" "OLD" = false :=
  ⟨rfl, rfl, rfl⟩

/-- C1 (amended): in the child environment passed to the build subprocess,
`PATH` and `LIB` each equal their parent value extended with `";"` and a
toolkit-relative directory, `PKG_CONFIG_PATH` is wholly replaced by the
toolkit-relative pkgconfig directory regardless of its parent value, and
every other variable is passed through unchanged. -/
theorem C1_amended_child_env (gtk_bin_dir : String) (parent : Env) (p l : String)
    (hPath : envLookup parent "PATH" = some p)
    (hLib : envLookup parent "LIB" = some l) :
    childEnvLookup gtk_bin_dir parent "PKG_CONFIG_PATH"
        = some (resolvePath (pjoin gtk_bin_dir "../lib/pkgconfig")) ∧
    childEnvLookup gtk_bin_dir parent "PATH" = some (p ++ ";" ++ resolvePath gtk_bin_dir) ∧
    childEnvLookup gtk_bin_dir parent "LIB"
        = some (l ++ ";" ++ resolvePath (pjoin gtk_bin_dir "../lib")) ∧
    (∀ k, k ≠ "PKG_CONFIG_PATH" → k ≠ "PATH" → k ≠ "LIB" →
      childEnvLookup gtk_bin_dir parent k = envLookup parent k) := by
  have h1 : envLookup
      (envSet parent "PKG_CONFIG_PATH" (resolvePath (pjoin gtk_bin_dir "../lib/pkgconfig")))
      "PATH" = some p := by
    rw [envLookup_envSet_ne _ _ _ _ (by decide)]; exact hPath
  have h2 : envLookup
      (envSet
        (envSet parent "PKG_CONFIG_PATH" (resolvePath (pjoin gtk_bin_dir "../lib/pkgconfig")))
        "PATH" (p ++ ";" ++ resolvePath gtk_bin_dir))
      "LIB" = some l := by
    rw [envLookup_envSet_ne _ _ _ _ (by decide),
      envLookup_envSet_ne _ _ _ _ (by decide)]
    exact hLib
  have hbe : build_env gtk_bin_dir parent =
      .ok (envSet
        (envSet
          (envSet parent "PKG_CONFIG_PATH" (resolvePath (pjoin gtk_bin_dir "../lib/pkgconfig")))
          "PATH" (p ++ ";" ++ resolvePath gtk_bin_dir))
        "LIB" (l ++ ";" ++ resolvePath (pjoin gtk_bin_dir "../lib"))) := by
    simp [build_env, envGet, h1, h2]
  refine ⟨?_, ?_, ?_, ?_⟩
  · simp only [childEnvLookup, hbe]
    rw [envLookup_envSet_ne _ _ _ _ (by decide),
      envLookup_envSet_ne _ _ _ _ (by decide),
      envLookup_envSet_self]
  · simp only [childEnvLookup, hbe]
    rw [envLookup_envSet_ne _ _ _ _ (by decide), envLookup_envSet_self]
  · simp only [childEnvLookup, hbe]
    rw [envLookup_envSet_self]
  · intro k hk1 hk2 hk3
    simp only [childEnvLookup, hbe]
    rw [envLookup_envSet_ne _ _ _ _ hk3, envLookup_envSet_ne _ _ _ _ hk2,
      envLookup_envSet_ne _ _ _ _ hk1]

/-- C1 witness: concrete parent environment on which the amended description
of the child `PATH` holds. -/
theorem C1_witness :
    envLookup demoParentEnv "PATH" = some "P" ∧
    envLookup demoParentEnv "LIB" = some "L" ∧
    childEnvLookup "C:/gtk/bin" demoParentEnv "PATH" = some ("P" ++ ";" ++ resolvePath "C:/gtk/bin") :=
  ⟨rfl, rfl, (C1_amended_child_env "C:/gtk/bin" demoParentEnv "P" "L" rfl rfl).2.1⟩

/-- C2 counterexample: on a metadata document missing the `target_directory`
key entirely, `get_cargo_metadata` fails with a bare `KeyError` from the
subscript access at line 91 — not one of its descriptive `ValueError`
diagnostics — refuting the claim that every missing-field document yields a
descriptive error. -/
theorem C2_counterexample :
    get_cargo_metadata (Json.obj []) = .error (.keyError "target_directory") := rfl

@[simp] theorem jsonIsNull_str (s : String) : jsonIsNull (.str s) = false := rfl

@[simp] theorem jsonAsStr_str (s : String) : jsonAsStr (.str s) = some s := rfl

@[simp] theorem jsonTruthy_arr (xs : List Json) : jsonTruthy (.arr xs) = !xs.isEmpty := rfl

/-- C2 (amended): for every metadata JSON document (a JSON object),
`get_cargo_metadata` returns the `(target_directory, package name)` pair on a
well-formed document; it fails with the corresponding descriptive
`ValueError` whenever `target_directory` is null or present but not a string,
`packages` is present but falsy (null or empty), a non-list, or a list of two
or more entries, or the package's `name` is null or present but not a string;
but when the `target_directory`, `packages`, or `name` key is entirely absent,
it fails with a bare `KeyError` naming the key instead of a descriptive
error. -/
theorem C2_amended_metadata (fields : List (String × Json)) :
    (∀ td pf nm, jlookup fields "target_directory" = some (.str td) →
      jlookup fields "packages" = some (.arr [.obj pf]) →
      jlookup pf "name" = some (.str nm) →
      get_cargo_metadata (.obj fields) = .ok ⟨td, nm⟩) ∧
    (jlookup fields "target_directory" = some .null →
      get_cargo_metadata (.obj fields) =
        .error (.valueError "The returned json object didn\x27t define a \"target_directory\" property")) ∧
    (∀ v, jlookup fields "target_directory" = some v → jsonIsNull v = false →
      jsonAsStr v = none →
      get_cargo_metadata (.obj fields) =
        .error (.valueError "target_directory is not a string")) ∧
    (∀ td v, jlookup fields "target_directory" = some (.str td) →
      jlookup fields "packages" = some v → jsonTruthy v = false →
      get_cargo_metadata (.obj fields) =
        .error (.valueError "The returned json object didn\x27t define a \"packages\" property")) ∧
    (∀ td v, jlookup fields "target_directory" = some (.str td) →
      jlookup fields "packages" = some v → jsonTruthy v = true → (∀ xs, v ≠ .arr xs) →
      get_cargo_metadata (.obj fields) =
        .error (.valueError "packages is not a list")) ∧
    (∀ td xs, jlookup fields "target_directory" = some (.str td) →
      jlookup fields "packages" = some (.arr xs) → 2 ≤ xs.length →
      get_cargo_metadata (.obj fields) =
        .error (.valueError "packages is not a list of length 1")) ∧
    (∀ td pf, jlookup fields "target_directory" = some (.str td) →
      jlookup fields "packages" = some (.arr [.obj pf]) →
      jlookup pf "name" = some .null →
      get_cargo_metadata (.obj fields) =
        .error (.valueError "The package didn\x27t define a \"name\" property")) ∧
    (∀ td pf v, jlookup fields "target_directory" = some (.str td) →
      jlookup fields "packages" = some (.arr [.obj pf]) →
      jlookup pf "name" = some v → jsonIsNull v = false → jsonAsStr v = none →
      get_cargo_metadata (.obj fields) =
        .error (.valueError "name is not a string")) ∧
    (jlookup fields "target_directory" = none →
      get_cargo_metadata (.obj fields) = .error (.keyError "target_directory")) ∧
    (∀ td, jlookup fields "target_directory" = some (.str td) →
      jlookup fields "packages" = none →
      get_cargo_metadata (.obj fields) = .error (.keyError "packages")) ∧
    (∀ td pf, jlookup fields "target_directory" = some (.str td) →
      jlookup fields "packages" = some (.arr [.obj pf]) →
      jlookup pf "name" = none →
      get_cargo_metadata (.obj fields) = .error (.keyError "name")) := by
  refine ⟨?_, ?_, ?_, ?_, ?_, ?_, ?_, ?_, ?_, ?_, ?_⟩
  · intro td pf nm h1 h2 h3
    simp [get_cargo_metadata, dictGet, h1, h2, h3, jsonIsNull, jsonAsStr, jsonTruthy]
  · intro h1
    simp [get_cargo_metadata, dictGet, h1, jsonIsNull]
  · intro v h1 h2 h3
    simp [get_cargo_metadata, dictGet, h1, h2, h3]
  · intro td v h1 h2 h3
    simp [get_cargo_metadata, dictGet, h1, h2, h3, jsonIsNull, jsonAsStr]
  · intro td v h1 h2 h3 h4
    cases v with
    | arr xs => exact absurd rfl (h4 xs)
    | null => simp [jsonTruthy] at h3
    | bool b => simp [get_cargo_metadata, dictGet, h1, h2, h3, jsonIsNull, jsonAsStr]
    | num n => simp [get_cargo_metadata, dictGet, h1, h2, h3, jsonIsNull, jsonAsStr]
    | str s => simp [get_cargo_metadata, dictGet, h1, h2, h3, jsonIsNull, jsonAsStr]
    | obj fs => simp [get_cargo_metadata, dictGet, h1, h2, h3, jsonIsNull, jsonAsStr]
  · intro td xs h1 h2 hlen
    cases xs with
    | nil => simp at hlen
    | cons a t =>
      cases t with
      | nil => simp at hlen
      | cons b r =>
        simp [get_cargo_metadata, dictGet, h1, h2, jsonIsNull, jsonAsStr, jsonTruthy]
  · intro td pf h1 h2 h3
    simp [get_cargo_metadata, dictGet, h1, h2, h3, jsonIsNull, jsonAsStr, jsonTruthy]
  · intro td pf v h1 h2 h3 h4 h5
    simp [get_cargo_metadata, dictGet, h1, h2, h3, h4, h5, jsonTruthy]
  · intro h1
    simp [get_cargo_metadata, dictGet, h1]
  · intro td h1 h2
    simp [get_cargo_metadata, dictGet, h1, h2, jsonIsNull, jsonAsStr]
  · intro td pf h1 h2 h3
    simp [get_cargo_metadata, dictGet, h1, h2, h3, jsonIsNull, jsonAsStr, jsonTruthy]

/-- C2 witness: concrete documents exercising every case of the amended
claim — the well-formed document, each present-but-malformed field with its
descriptive `ValueError`, and each absent key with its `KeyError`. -/
theorem C2_witness :
    get_cargo_metadata demoMetadata = .ok ⟨"/proj/target", "firefox-session-ui-gtk4"⟩ ∧
    get_cargo_metadata (.obj [("target_directory", .null)]) =
      .error (.valueError "The returned json object didn\x27t define a \"target_directory\" property") ∧
    get_cargo_metadata (.obj [("target_directory", .num 5)]) =
      .error (.valueError "target_directory is not a string") ∧
    get_cargo_metadata (.obj [("target_directory", .str "/t"), ("packages", .arr [])]) =
      .error (.valueError "The returned json object didn\x27t define a \"packages\" property") ∧
    get_cargo_metadata (.obj [("target_directory", .str "/t"), ("packages", .str "x")]) =
      .error (.valueError "packages is not a list") ∧
    get_cargo_metadata (.obj [("target_directory", .str "/t"), ("packages", .arr [.null, .null])]) =
      .error (.valueError "packages is not a list of length 1") ∧
    get_cargo_metadata (.obj [("target_directory", .str "/t"),
        ("packages", .arr [.obj [("name", .null)]])]) =
      .error (.valueError "The package didn\x27t define a \"name\" property") ∧
    get_cargo_metadata (.obj [("target_directory", .str "/t"),
        ("packages", .arr [.obj [("name", .num 3)]])]) =
      .error (.valueError "name is not a string") ∧
    get_cargo_metadata (.obj [("other", .null)]) = .error (.keyError "target_directory") ∧
    get_cargo_metadata (.obj [("target_directory", .str "/t")]) = .error (.keyError "packages") ∧
    get_cargo_metadata (.obj [("target_directory", .str "/t"),
        ("packages", .arr [.obj []])]) = .error (.keyError "name") :=
  ⟨(C2_amended_metadata _).1 "/proj/target" _ "firefox-session-ui-gtk4" rfl rfl rfl,
   (C2_amended_metadata _).2.1 rfl,
   (C2_amended_metadata _).2.2.1 (.num 5) rfl rfl rfl,
   (C2_amended_metadata _).2.2.2.1 "/t" (.arr []) rfl rfl rfl,
   (C2_amended_metadata _).2.2.2.2.1 "/t" (.str "x") rfl rfl rfl
     (fun xs h => Json.noConfusion h),
   (C2_amended_metadata _).2.2.2.2.2.1 "/t" [.null, .null] rfl rfl (by decide),
   (C2_amended_metadata _).2.2.2.2.2.2.1 "/t" _ rfl rfl rfl,
   (C2_amended_metadata _).2.2.2.2.2.2.2.1 "/t" _ (.num 3) rfl rfl rfl rfl rfl,
   (C2_amended_metadata _).2.2.2.2.2.2.2.2.1 rfl,
   (C2_amended_metadata _).2.2.2.2.2.2.2.2.2.1 "/t" rfl rfl,
   (C2_amended_metadata _).2.2.2.2.2.2.2.2.2.2 "/t" _ rfl rfl rfl⟩

/-- C3: after parsing the build tool's line-delimited JSON output, a
retained-artifact count of exactly 1 lets `build_rust_binary` return that
artifact's path, and any other count (0 or more than 1) is a fatal error via
the failed assertion `assert len(binaries) == 1`. -/
theorem C3_artifact_count_assertion (msgs : List Json) (bs : List String)
    (h : collect_binaries msgs = .ok bs) :
    (∀ b, bs = [b] → find_built_binary msgs = .ok b) ∧
    (bs.length ≠ 1 → find_built_binary msgs = .error .assertionError) := by
  constructor
  · intro b hb
    subst hb
    simp [find_built_binary, h]
  · intro hlen
    cases bs with
    | nil => simp [find_built_binary, h]
    | cons a t =>
      cases t with
      | nil => simp at hlen
      | cons b r => simp [find_built_binary, h]

/-- C3 witness: a concrete message list with exactly one retained artifact
returns its path, and the empty message list (zero artifacts) fails the
assertion. -/
theorem C3_witness :
    collect_binaries demoMsgs = .ok ["/proj/target/release/app.exe"] ∧
    find_built_binary demoMsgs = .ok "/proj/target/release/app.exe" ∧
    find_built_binary ([] : List Json) = .error .assertionError :=
  ⟨rfl,
   (C3_artifact_count_assertion demoMsgs ["/proj/target/release/app.exe"] rfl).1
     "/proj/target/release/app.exe" rfl,
   (C3_artifact_count_assertion [] [] rfl).2 (by decide)⟩

/-- C6: over any sequence of build-tool messages (conforming to the build
tool's message schema), `build_rust_binary` retains exactly those messages
whose `reason` field equals `"compiler-artifact"` and whose `executable`
field is a non-empty string, in order; every other message is skipped. -/
theorem C6_retained_messages (msgs : List Json)
    (h : ∀ m ∈ msgs, buildMsgSchema m = true) :
    collect_binaries msgs = .ok (msgs.filterMap specRetainedExecutable) := by
  induction msgs with
  | nil => simp [collect_binaries]
  | cons m rest ih =>
    have hm := h m (List.mem_cons_self m rest)
    have hrest := ih (fun x hx => h x (List.mem_cons_of_mem m hx))
    cases m with
    | null => simp [buildMsgSchema] at hm
    | bool b => simp [buildMsgSchema] at hm
    | num n => simp [buildMsgSchema] at hm
    | str s => simp [buildMsgSchema] at hm
    | arr xs => simp [buildMsgSchema] at hm
    | obj fields =>
      cases hr : jlookup fields "reason" with
      | none => simp [buildMsgSchema, hr] at hm
      | some r =>
        cases hx : jlookup fields "executable" with
        | none =>
          cases r with
          | str s =>
            by_cases hcomp : s = "compiler-artifact"
            · subst hcomp
              simp [buildMsgSchema, hr, hx] at hm
            · simp [collect_binaries, dictGet, hr, hx, reasonIsCompilerArtifact, hcomp,
                specRetainedExecutable, hrest]
          | null =>
            simp [collect_binaries, dictGet, hr, hx, reasonIsCompilerArtifact,
              specRetainedExecutable, hrest]
          | bool b =>
            simp [collect_binaries, dictGet, hr, hx, reasonIsCompilerArtifact,
              specRetainedExecutable, hrest]
          | num n =>
            simp [collect_binaries, dictGet, hr, hx, reasonIsCompilerArtifact,
              specRetainedExecutable, hrest]
          | arr xs =>
            simp [collect_binaries, dictGet, hr, hx, reasonIsCompilerArtifact,
              specRetainedExecutable, hrest]
          | obj fs2 =>
            simp [collect_binaries, dictGet, hr, hx, reasonIsCompilerArtifact,
              specRetainedExecutable, hrest]
        | some ex =>
          cases r with
          | str s =>
            by_cases hcomp : s = "compiler-artifact"
            · subst hcomp
              cases ex with
              | str e =>
                by_cases he : e = ""
                · subst he
                  simp [collect_binaries, dictGet, hr, hx, reasonIsCompilerArtifact,
                    jsonTruthy, specRetainedExecutable, hrest]
                · simp [collect_binaries, dictGet, hr, hx, reasonIsCompilerArtifact,
                    jsonTruthy, he, specRetainedExecutable, hrest]
              | null =>
                simp [collect_binaries, dictGet, hr, hx, reasonIsCompilerArtifact,
                  jsonTruthy, specRetainedExecutable, hrest]
              | bool b =>
                cases b <;>
                  simp [collect_binaries, dictGet, hr, hx, reasonIsCompilerArtifact,
                    jsonTruthy, specRetainedExecutable, hrest]
              | num n =>
                rcases eq_or_ne n 0 with hn | hn
                · subst hn
                  simp [collect_binaries, dictGet, hr, hx, reasonIsCompilerArtifact,
                    jsonTruthy, specRetainedExecutable, hrest]
                · simp [collect_binaries, dictGet, hr, hx, reasonIsCompilerArtifact,
                    jsonTruthy, hn, specRetainedExecutable, hrest]
              | arr xs =>
                cases xs <;>
                  simp [collect_binaries, dictGet, hr, hx, reasonIsCompilerArtifact,
                    jsonTruthy, specRetainedExecutable, hrest]
              | obj fs2 =>
                cases fs2 <;>
                  simp [collect_binaries, dictGet, hr, hx, reasonIsCompilerArtifact,
                    jsonTruthy, specRetainedExecutable, hrest]
            · cases ex <;>
                simp [collect_binaries, dictGet, hr, hx, reasonIsCompilerArtifact, hcomp,
                  specRetainedExecutable, hrest]
          | null =>
            cases ex <;>
              simp [collect_binaries, dictGet, hr, hx, reasonIsCompilerArtifact,
                specRetainedExecutable, hrest]
          | bool b =>
            cases ex <;>
              simp [collect_binaries, dictGet, hr, hx, reasonIsCompilerArtifact,
                specRetainedExecutable, hrest]
          | num n =>
            cases ex <;>
              simp [collect_binaries, dictGet, hr, hx, reasonIsCompilerArtifact,
                specRetainedExecutable, hrest]
          | arr xs =>
            cases ex <;>
              simp [collect_binaries, dictGet, hr, hx, reasonIsCompilerArtifact,
                specRetainedExecutable, hrest]
          | obj fs2 =>
            cases ex <;>
              simp [collect_binaries, dictGet, hr, hx, reasonIsCompilerArtifact,
                specRetainedExecutable, hrest]

/-- C6 witness: on a concrete schema-conforming message list, the retained
executables are exactly those selected by the claim's description. -/
theorem C6_witness :
    (∀ m ∈ demoMsgs, buildMsgSchema m = true) ∧
    collect_binaries demoMsgs = .ok (demoMsgs.filterMap specRetainedExecutable) :=
  ⟨by decide, C6_retained_messages demoMsgs (by decide)⟩

/-- C4: in the `--download-gtk` branch with no cache present, the script
exits with code 1 — after printing a diagnostic (at least one line beyond the
branch header) and with no download or extraction event, only the listing
request — whenever the HTTP status is not success, zero assets match the GTK4
name filter, more than one asset matches, or the single matched asset's
content type is not `application/zip`. -/
theorem C4_download_branch_exits (targetDir : String) (statusCode : Nat)
    (assets : Option (List Asset))
    (h : statusCode ≠ 200 ∨ matchedAssets assets = [] ∨
      2 ≤ (matchedAssets assets).length ∨
      (∃ a, matchedAssets assets = [a] ∧ a.content_type ≠ "application/zip")) :
    (download_gtk_branch targetDir false statusCode assets).outcome = .exitCode 1 ∧
    (download_gtk_branch targetDir false statusCode assets).events = [.httpGet releasesUrl] ∧
    2 ≤ (download_gtk_branch targetDir false statusCode assets).prints.length := by
  by_cases h200 : statusCode = 200
  · subst h200
    cases assets with
    | none => simp [download_gtk_branch]
    | some assetList =>
      by_cases hemp : assetList.length = 0
      · simp [download_gtk_branch, hemp]
      · cases hfil : gtk_asset_filter assetList with
        | nil => simp [download_gtk_branch, hemp, hfil]
        | cons a t =>
          cases t with
          | nil =>
            have hct : a.content_type ≠ "application/zip" := by
              rcases h with h | h | h | ⟨a', ha', hcta⟩
              · exact absurd rfl h
              · rw [matchedAssets, hfil] at h
                exact absurd h (by simp)
              · rw [matchedAssets, hfil] at h
                simp at h
              · rw [matchedAssets, hfil] at ha'
                obtain rfl : a = a' := by simpa using ha'
                exact hcta
            cases hurl : a.browser_download_url with
            | none => simp [download_gtk_branch, hemp, hfil, hurl]
            | some url => simp [download_gtk_branch, hemp, hfil, hurl, hct]
          | cons b r => simp [download_gtk_branch, hemp, hfil]
  · simp [download_gtk_branch, h200]

/-- C4 witness: a failed HTTP status on concrete inputs makes the branch
exit with code 1, printing a diagnostic and performing no download. -/
theorem C4_witness :
    (404 : Nat) ≠ 200 ∧
    (download_gtk_branch "/proj/target" false 404 none).outcome = .exitCode 1 ∧
    (download_gtk_branch "/proj/target" false 404 none).events = [.httpGet releasesUrl] ∧
    2 ≤ (download_gtk_branch "/proj/target" false 404 none).prints.length :=
  ⟨by decide, C4_download_branch_exits "/proj/target" 404 none (Or.inl (by decide))⟩

/-- C5: in the `--download-gtk` branch, when the cache directory already
exists no network request, download, or extraction event occurs at all; when
it does not exist and the listing yields a single valid GTK4 archive asset,
the events are exactly one listing request, one download of the asset's URL,
and one extraction into the cache directory keyed by the build-tool output
path. -/
theorem C5_cache_and_single_download (targetDir : String) (statusCode : Nat)
    (assets : Option (List Asset)) :
    ((download_gtk_branch targetDir true statusCode assets).events = []) ∧
    (∀ assetList a url, statusCode = 200 → assets = some assetList →
      gtk_asset_filter assetList = [a] →
      a.browser_download_url = some url → a.content_type = "application/zip" →
      (download_gtk_branch targetDir false statusCode assets).events =
        [.httpGet releasesUrl, .download url,
         .extract (pjoin targetDir "./gtk-from-github")]) := by
  constructor
  · simp [download_gtk_branch]
  · intro assetList a url h200 hassets hfil hurl hct
    subst h200
    subst hassets
    have hne : assetList.length ≠ 0 := by
      intro h0
      rw [List.length_eq_zero] at h0
      subst h0
      simp [gtk_asset_filter] at hfil
    simp [download_gtk_branch, hne, hfil, hurl, hct]

/-- C5 witness: a concrete valid single asset is downloaded and extracted
exactly once into the cache directory, and a run with the cache present
performs no event. -/
theorem C5_witness :
    (download_gtk_branch "/proj/target" true 200 (some [demoAsset])).events = [] ∧
    (download_gtk_branch "/proj/target" false 200 (some [demoAsset])).events =
      [.httpGet releasesUrl, .download "https://example.invalid/gtk4.zip",
       .extract (pjoin "/proj/target" "./gtk-from-github")] :=
  ⟨(C5_cache_and_single_download "/proj/target" 200 (some [demoAsset])).1,
   (C5_cache_and_single_download "/proj/target" 200 (some [demoAsset])).2
     [demoAsset] demoAsset "https://example.invalid/gtk4.zip" rfl rfl rfl rfl rfl⟩

/-! Helper lemmas about the filesystem model. -/

theorem applyWrites_apply (ws : List (String × String)) (fs : FileSys) (k : String) :
    applyWrites ws fs k =
      (match lastWrite ws k with
       | some v => some v
       | none => fs k) := by
  induction ws generalizing fs with
  | nil => rfl
  | cons kv ws ih =>
    rw [show applyWrites (kv :: ws) fs = applyWrites ws (setFile fs kv.1 kv.2) from rfl, ih]
    cases hl : lastWrite ws k with
    | some v => simp [lastWrite, hl]
    | none =>
      simp only [lastWrite, hl]
      by_cases hk : kv.1 = k
      · subst hk
        simp [setFile]
      · simp [setFile, hk, Ne.symm hk]

theorem lastWrite_append_last (l : List (String × String)) (k v : String) :
    lastWrite (l ++ [(k, v)]) k = some v := by
  induction l with
  | nil => simp [lastWrite]
  | cons kv rest ih => simp [lastWrite, ih]

/-- C7: bundle assembly is idempotent — running it twice against the same
toolkit directory and bundle directory yields the same filesystem (hence the
same final file set) as running it once — and after each run the settings
file `share/gtk-4.0/settings.ini` holds exactly the two-line content
`"[Settings]\ngtk-font-name=Segoe UI 10\n"` (overwrite semantics, never
append). -/
theorem C7_assembly_idempotent (t : ToolkitDir) (bundleDir : String) (fs : FileSys) :
    bundle_assembly t bundleDir (bundle_assembly t bundleDir fs) =
      bundle_assembly t bundleDir fs ∧
    bundle_assembly t bundleDir fs (pjoin bundleDir "./share/gtk-4.0/settings.ini") =
      some "[Settings]\ngtk-font-name=Segoe UI 10\n" := by
  have hlast : lastWrite (bundleWrites t bundleDir)
      (pjoin bundleDir "./share/gtk-4.0/settings.ini") = some settings_ini_content := by
    rw [bundleWrites,
      show [(pjoin bundleDir "gdbus.exe", t.gdbus),
            (pjoin (pjoin bundleDir "./share/glib-2.0/schemas") "gschemas.compiled", t.gschemas),
            (pjoin bundleDir "./share/gtk-4.0/settings.ini", settings_ini_content)] =
          [(pjoin bundleDir "gdbus.exe", t.gdbus),
           (pjoin (pjoin bundleDir "./share/glib-2.0/schemas") "gschemas.compiled", t.gschemas)] ++
          [(pjoin bundleDir "./share/gtk-4.0/settings.ini", settings_ini_content)] from rfl,
      ← List.append_assoc, lastWrite_append_last]
  constructor
  · funext k
    simp only [bundle_assembly, applyWrites_apply]
    cases lastWrite (bundleWrites t bundleDir) k <;> rfl
  · rw [bundle_assembly, applyWrites_apply, hlast]
    rfl

/-- C8 counterexample: with `--show-binary` set (and `--show-zip` unset), a
reveal action occurs before the archiving step, refuting the claim that
archiving always precedes any reveal. -/
theorem C8_counterexample :
    noRevealBeforeZip (final_steps true false) = false := by decide

/-- C8 (amended): the `--show-zip` reveal is invoked only after the bundle
directory has been zipped, but the `--show-binary` reveal is invoked before
archiving — it never appears after the zip step, only in the prefix that
precedes it. -/
theorem C8_reveal_order (sb sz : Bool) :
    FinalStep.revealZip ∉ (final_steps sb sz).takeWhile (fun s => !(isZipStep s)) ∧
    (sb = true →
      FinalStep.revealBinary ∈ (final_steps sb sz).takeWhile (fun s => !(isZipStep s))) := by
  cases sb <;> cases sz
  · exact ⟨by decide, fun h => Bool.noConfusion h⟩
  · exact ⟨by decide, fun h => Bool.noConfusion h⟩
  · exact ⟨by decide, fun h => by decide⟩
  · exact ⟨by decide, fun h => by decide⟩

/-- C8 witness: with both flags set, the binary reveal indeed occurs in the
prefix of steps preceding the zip step. -/
theorem C8_witness :
    FinalStep.revealBinary ∈ (final_steps true true).takeWhile (fun s => !(isZipStep s)) :=
  (C8_reveal_order true true).2 rfl

end BundleSpec
